import Mathlib

/-!
Verification of the perceive → decide → act agent loop:
a shallow embedding of `reasoning.py` (response parsing, field
sanitation, retry/backoff around the oracle call) and `browser.py`
(the `BrowserAgent.run` step loop with multi-strategy click/type
resolution), with theorems settling the specification claims.

Strings are modelled as `List Char`; every Python primitive that can
raise is modelled as `Except` or a `Bool` success flag supplied by an
environment record, and the loop is run on explicit fuel.
-/


/-- Python `\s` whitespace class: space, tab, newline, carriage return,
vertical tab, form feed. -/
def isPyWS (c : Char) : Bool :=
  c == ' ' || c == '\t' || c == '\n' || c == '\r' || c == '\x0b' || c == '\x0c'

/-- Characters stripped by `t.strip(" '\"")` in `_sanitize_fields`:
space, single quote, double quote. -/
def isQuoteSp (c : Char) : Bool :=
  c == ' ' || c == '\'' || c == '"'

/-- Strip characters satisfying `p` from both ends of a list,
like Python's `str.strip`. -/
def stripWhile (p : Char → Bool) (l : List Char) : List Char :=
  (l.rdropWhile p).dropWhile p

/-- Python `str.strip()` with no arguments (whitespace strip). -/
def pyStrip (s : List Char) : List Char := stripWhile isPyWS s

/-- Python `str.lower()` (basic-latin case folding, as in the source's
ASCII field labels and action values). -/
def lowerList (s : List Char) : List Char := s.map Char.toLower

/-! ## reasoning.py — `_parse_response`

`re.search(rf"{field}:\s*(.*)", txt, re.IGNORECASE)`: find the leftmost
case-insensitive occurrence of `field ++ ":"` anywhere in the text, skip
the maximal whitespace run after the colon (`\s*` may cross newlines),
capture the rest of that line (`.` does not match `\n`), then `.strip()`.
-/

/-- Suffix of `s` after the pattern `pat`, at the leftmost position where
`pat` matches case-insensitively; `none` when there is no match. -/
def findCI (pat : List Char) : List Char → Option (List Char)
  | [] => if pat = [] then some [] else none
  | c :: cs =>
    if lowerList pat <+: lowerList (c :: cs) then some ((c :: cs).drop pat.length)
    else findCI pat cs

/-- `grab(field)` from `_parse_response`: value of the first
`field:`-labelled occurrence, empty when the label never occurs. -/
def grab (field : List Char) (txt : List Char) : List Char :=
  match findCI (field ++ [':']) txt with
  | none => []
  | some rest => pyStrip ((rest.dropWhile isPyWS).takeWhile (fun c => c != '\n'))

/-- The dict produced by `_parse_response` / `_sanitize_fields` /
`decide_next_action`: the four labelled fields plus the raw text. -/
structure RespFields where
  action : List Char
  target : List Char
  value : List Char
  reasoning : List Char
  raw : List Char
deriving DecidableEq, Repr

/-- `_parse_response`: strip the text, extract the four labelled fields
(the `action` value is lowercased), keep the stripped text as `raw`. -/
def parse_response (text : List Char) : RespFields :=
  let txt := pyStrip text
  { action := lowerList (grab ("action".toList) txt)
    target := grab ("target".toList) txt
    value := grab ("value".toList) txt
    reasoning := grab ("reasoning".toList) txt
    raw := txt }

/-! ## reasoning.py — `_sanitize_fields` -/

/-- The fixed separator list of `_sanitize_fields` marking accidental
descriptive suffixes of `target`. -/
def sepsList : List (List Char) :=
  [" (".toList, " - ".toList, " — ".toList, " -> ".toList, " → ".toList,
   " under ".toList, " / ".toList]

/-- `t.split(sep, 1)[0]`: the prefix of `t` before the first occurrence
of `sep` (all of `t` when `sep` does not occur). -/
def splitFirst (sep : List Char) : List Char → List Char
  | [] => []
  | c :: cs => if sep <+: (c :: cs) then [] else c :: splitFirst sep cs

/-- One iteration of the separator loop:
`if sep in t: t = t.split(sep, 1)[0].strip()`. -/
def truncAtSep (t sep : List Char) : List Char :=
  if sep <:+: t then pyStrip (splitFirst sep t) else t

/-- Sanitation of the `target` field: strip, cut at each descriptive
separator, then `strip(" '\"")` followed by `strip()`. -/
def sanitize_target (t0 : List Char) : List Char :=
  pyStrip (stripWhile isQuoteSp (sepsList.foldl truncAtSep (pyStrip t0)))

/-- `_sanitize_fields`: clean `target`, strip-and-lowercase `action`,
leave the other fields unchanged. -/
def sanitize_fields (d : RespFields) : RespFields :=
  { d with target := sanitize_target d.target
           action := lowerList (pyStrip d.action) }

/-! ## reasoning.py — `_call_with_retry` and `decide_next_action` -/

/-- Transient-error test of `_call_with_retry`:
`"429" in msg or "rate" in msg.lower() or "temporarily unavailable" in msg.lower()`. -/
def is_transient (msg : List Char) : Prop :=
  ("429".toList) <:+: msg
  ∨ ("rate".toList) <:+: lowerList msg
  ∨ ("temporarily unavailable".toList) <:+: lowerList msg

instance (msg : List Char) : Decidable (is_transient msg) := by
  unfold is_transient; infer_instance

/-- Outcome of the retry wrapper: the final result (an `Except.error`
means the exception propagated to the caller), the number of calls to
`create_fn`, and the back-off sleeps performed, in order. -/
structure RetryOut (α : Type) where
  result : Except (List Char) α
  calls : Nat
  waits : List Nat
deriving Repr

/-- The `for attempt in range(max_retries)` loop of `_call_with_retry`,
with `fuel` iterations left, `i` calls already made and `ws` the sleeps
so far.  When the loop ends without returning, the source performs one
final unguarded `return create_fn()`. -/
def call_with_retry_go (fn : Nat → Except (List Char) α) (base : Nat) :
    Nat → Nat → List Nat → RetryOut α
  | 0, i, ws => ⟨fn i, i + 1, ws⟩
  | fuel + 1, i, ws =>
    match fn i with
    | .ok a => ⟨.ok a, i + 1, ws⟩
    | .error e =>
      if is_transient e then
        call_with_retry_go fn base fuel (i + 1) (ws ++ [base * 2 ^ i])
      else ⟨.error e, i + 1, ws⟩

/-- `_call_with_retry(create_fn)` with the default `max_retries=3`;
`fn k` is the outcome of the `k`-th call of `create_fn` (0-based) and
`base` the base delay. -/
def call_with_retry (fn : Nat → Except (List Char) α) (base : Nat) : RetryOut α :=
  call_with_retry_go fn base 3 0 []

/-- The synthetic degraded decision returned by `decide_next_action`
when the API call fails: a `wait` with the error text in `raw`. -/
def api_error_resp (e : List Char) : RespFields :=
  { action := "wait".toList, target := [], value := [],
    reasoning := "API error — waiting for next step.".toList, raw := e }

/-- `decide_next_action`, abstracted over the oracle transport `fn`
(the `k`-th call's outcome): on any propagated exception the catch-all
returns the synthetic `wait` decision; otherwise the raw output is
stripped, parsed and sanitized. -/
def decide_next_action (fn : Nat → Except (List Char) (List Char)) (base : Nat) :
    RespFields :=
  match (call_with_retry fn base).result with
  | .error e => api_error_resp e
  | .ok content => sanitize_fields (parse_response (pyStrip content))

/-! ## browser.py — `BrowserAgent.run`

The loop state is the step counter and the click memory
(`last_action`, `last_target`).  Every page primitive the loop touches
is modelled as a per-step environment record: `Except` for the two
observation reads (an `error` models a raised exception) and success
flags for each resolution strategy (`false` models a raised/timed-out
attempt, which the source catches and converts into fall-through).
The oracle `reasoning_func` is a function of the DOM text handed to it.
-/

/-- Loop state of `BrowserAgent.run`: `step`, `last_action`, `last_target`. -/
structure LoopState where
  step : Nat
  lastAction : Option (List Char)
  lastTarget : Option (List Char)
deriving DecidableEq, Repr

/-- One step's worth of page behaviour. -/
structure StepEnv where
  /-- `page.screenshot(...)`; an `error` is an uncaught exception. -/
  screenshot : Except (List Char) Unit
  /-- `page.inner_text("body")`; an `error` is caught and degraded. -/
  innerText : Except (List Char) (List Char)
  /-- `reasoning_func(dom_text, goal, img_path)` as a function of the DOM text. -/
  reason : List Char → RespFields
  /-- `page.get_by_text(target, exact=False).click(timeout=4000)` succeeded. -/
  clickByText : Bool
  /-- `page.get_by_placeholder(target).click(timeout=4000)` succeeded. -/
  clickByPlaceholder : Bool
  /-- `page.get_by_label(target, exact=False).click(timeout=4000)` succeeded. -/
  clickByLabel : Bool
  /-- Labels of `page.locator("button, [role='button'], a")`; `none`
  models `inner_text(timeout=1000)` raising for that element. -/
  buttons : List (Option (List Char))
  /-- `buttons.nth(i).click(timeout=4000)` succeeded. -/
  clickNth : Nat → Bool
  /-- `page.get_by_placeholder(target).fill(value, timeout=4000)` succeeded. -/
  fillByPlaceholder : Bool
  /-- `page.get_by_label(target, exact=False).fill(value, timeout=4000)` succeeded. -/
  fillByLabel : Bool
  /-- `page.fill("input[name='...']", value, timeout=4000)` succeeded. -/
  fillByInputName : Bool
  /-- `page.fill("textarea[name='...']", value, timeout=4000)` succeeded. -/
  fillByTextareaName : Bool
  /-- `page.locator("[contenteditable='true']").first.click(timeout=4000)` succeeded. -/
  editClick : Bool
  /-- `page.keyboard.press("Meta+A")` succeeded. -/
  metaA : Bool
  /-- `page.keyboard.press("Control+A")` succeeded. -/
  ctrlA : Bool
  /-- `page.keyboard.type(value, delay=20)` in the contenteditable branch succeeded. -/
  kbType : Bool
  /-- `page.get_by_text(target, exact=False).first.click(timeout=3000)` succeeded. -/
  nearClick : Bool
  /-- `page.keyboard.type(value, delay=20)` in the near-text branch succeeded. -/
  kbType2 : Bool

/-- Observable actions of one loop iteration, in program order. -/
inductive Event where
  /-- The screenshot was written. -/
  | shot
  /-- `reasoning_func` was invoked with this DOM text. -/
  | oracle (dom : List Char)
  /-- The click strategy chain ran for this target. -/
  | clickAttempted (target : List Char)
  /-- Some click strategy clicked the target. -/
  | clickDone (target : List Char)
  /-- All click strategies failed; the warning was printed. -/
  | clickFailed (target : List Char)
  /-- The type strategy chain ran for this target. -/
  | typeAttempted (target : List Char)
  /-- Some type strategy filled the value. -/
  | typeDone (value : List Char)
  /-- All type strategies failed; the warning was printed. -/
  | typeFailed (target : List Char)
  /-- `time.sleep(2)` — the wait / unrecognized-action branch. -/
  | slept
  /-- `time.sleep(1.5)` at the bottom of the loop body. -/
  | paced
  /-- `context.storage_state(path=storage_path)` after the loop. -/
  | saved
deriving DecidableEq, Repr

/-- Events that touch a page element. -/
def isInteraction : Event → Bool
  | .clickAttempted _ => true
  | .clickDone _ => true
  | .typeAttempted _ => true
  | .typeDone _ => true
  | _ => false

/-- Result of one loop iteration: an uncaught exception, the `done`
break, or the next state. -/
inductive StepResult where
  | crashed (e : List Char) (events : List Event)
  | finished (events : List Event)
  | next (s : LoopState) (events : List Event)
deriving DecidableEq, Repr

/-- `page.inner_text("body")[:8000]`, degraded to `""` when the read
raises. -/
def dom_base (env : StepEnv) : List Char :=
  match env.innerText with
  | .ok t => t.take 8000
  | .error _ => []

/-- The part of the click-feedback line that names the clicked target:
`'{last_target}' was just clicked`. -/
def hint_core (t : List Char) : List Char :=
  ("'".toList) ++ t ++ ("' was just clicked".toList)

/-- The fixed-format feedback line appended after a resolved click:
`\n(Note: '{last_target}' was just clicked. If it opened an input
field, you can now type.)`. -/
def hint_for (t : List Char) : List Char :=
  ("\n(Note: ".toList) ++ hint_core t ++
    (". If it opened an input field, you can now type.)".toList)

/-- The DOM text handed to the oracle: the bounded body text, plus the
click hint when `last_action == "click" and last_target` is truthy. -/
def dom_text (env : StepEnv) (s : LoopState) : List Char :=
  let base := dom_base env
  match s.lastAction, s.lastTarget with
  | some la, some t =>
    if la = ("click".toList) ∧ t ≠ [] then base ++ hint_for t else base
  | _, _ => base

/-- The three primary click strategies, tried in order with each
failure caught. -/
def try_click_strategies (env : StepEnv) : Bool :=
  env.clickByText || env.clickByPlaceholder || env.clickByLabel

/-- The bounded clickable-element scan: for each of the first
`min(buttons.count(), 40)` elements read the label (a raise skips the
element), compare lowercased target as substring of the stripped
lowercased label, and click the first match (a raising click also
skips the element).  Returns the index clicked. -/
def scan_buttons (env : StepEnv) (target : List Char) : Option Nat :=
  (List.range (min env.buttons.length 40)).findSome? fun i =>
    match env.buttons.get? i with
    | some (some lbl) =>
      if lowerList target <:+: lowerList (pyStrip lbl) ∧ env.clickNth i = true
      then some i else none
    | _ => none

/-- `found_element` of the click branch: a primary strategy or the scan
succeeded. -/
def click_resolved (env : StepEnv) (target : List Char) : Bool :=
  try_click_strategies env || (scan_buttons env target).isSome

/-- `filled` of the type branch: one of the four fills, else the
contenteditable fallback (click, then Meta+A with Control+A as its
rescue, then type), else — only for a truthy target — the
click-near-text fallback. -/
def type_filled (env : StepEnv) (target : List Char) : Bool :=
  (env.fillByPlaceholder || env.fillByLabel || env.fillByInputName
      || env.fillByTextareaName)
    || (env.editClick && (env.metaA || env.ctrlA) && env.kbType)
    || (!target.isEmpty && (env.nearClick && env.kbType2))

/-- The loop body after a successful screenshot: observe, decide, and
execute the sanitized action, producing the events of the iteration. -/
def step_body (env : StepEnv) (s : LoopState) : StepResult :=
  let dom := dom_text env s
  let d := env.reason dom
  let evs : List Event := [.shot, .oracle dom]
  let action := lowerList d.action
  let target := pyStrip d.target
  let value := pyStrip d.value
  if action = ("done".toList) then
    .finished evs
  else if action = ("click".toList) ∧ target ≠ [] then
    if click_resolved env target then
      .next ⟨s.step + 1, some ("click".toList), some target⟩
        (evs ++ [.clickAttempted target, .clickDone target, .paced])
    else
      .next ⟨s.step + 1, s.lastAction, s.lastTarget⟩
        (evs ++ [.clickAttempted target, .clickFailed target, .paced])
  else if action = ("type".toList) then
    if type_filled env target then
      .next ⟨s.step + 1, none, none⟩
        (evs ++ [.typeAttempted target, .typeDone value, .paced])
    else
      .next ⟨s.step + 1, s.lastAction, s.lastTarget⟩
        (evs ++ [.typeAttempted target, .typeFailed target, .paced])
  else
    .next ⟨s.step + 1, s.lastAction, s.lastTarget⟩ (evs ++ [.slept, .paced])

/-- One full loop iteration: the screenshot call is not guarded by any
`try`, so its failure is an uncaught exception. -/
def run_step (env : StepEnv) (s : LoopState) : StepResult :=
  match env.screenshot with
  | .error e => .crashed e []
  | .ok _ => step_body env s

/-- Final outcome of a bounded run of `BrowserAgent.run`'s loop. -/
inductive RunResult where
  | crashed (e : List Char)
  | completed
  | outOfFuel (s : LoopState)
deriving DecidableEq, Repr

/-- The `while True` loop on explicit fuel, followed by the one
`context.storage_state(...)` save that the source performs only on the
normal (`done`) exit path. -/
def run_loop (envs : Nat → StepEnv) (s : LoopState) : Nat → RunResult × List Event
  | 0 => (.outOfFuel s, [])
  | fuel + 1 =>
    match run_step (envs s.step) s with
    | .crashed e ev => (.crashed e, ev)
    | .finished ev => (.completed, ev ++ [.saved])
    | .next s' ev =>
      let r := run_loop envs s' fuel
      (r.1, ev ++ r.2)

/-- Decision dict on which sanitation is not idempotent: the target
`a'<TAB>'` (letter, quote, tab, quote). -/
def c6_bad : RespFields :=
  { action := "click".toList, target := "a'\t'".toList,
    value := [], reasoning := [], raw := [] }

/-- Decision dict with an ordinary spaced, quoted, suffixed target. -/
def c6_wd : RespFields :=
  { action := " CLICK ".toList, target := " 'All issues (top)' ".toList,
    value := "v".toList, reasoning := "r".toList, raw := "raw".toList }

/-- Oracle transport that answers three transient errors and then a
well-formed `click` response on the fourth call. -/
def c1_fn : Nat → Except (List Char) (List Char) := fun n =>
  if n < 3 then .error ("429 Too Many Requests".toList)
  else .ok ("action: click\ntarget: Save\nvalue:\nreasoning: next".toList)

/-- Oracle transport that fails every call with a transient signature. -/
def c1_wfn : Nat → Except (List Char) (List Char) := fun _ =>
  .error ("rate limit".toList)

/-! ## Concrete environments used by the loop claims -/

/-- Baseline environment: observation reads succeed with empty text, the
oracle answer is all-empty, and every resolution strategy fails. -/
def env0 : StepEnv :=
  { screenshot := .ok ()
    innerText := .ok []
    reason := fun _ => ⟨[], [], [], [], []⟩
    clickByText := false
    clickByPlaceholder := false
    clickByLabel := false
    buttons := []
    clickNth := fun _ => false
    fillByPlaceholder := false
    fillByLabel := false
    fillByInputName := false
    fillByTextareaName := false
    editClick := false
    metaA := false
    ctrlA := false
    kbType := false
    nearClick := false
    kbType2 := false }

/-- The state carried by a `.next` step result. -/
def next_state : StepResult → Option LoopState
  | .next s _ => some s
  | _ => none

/-- Environment whose oracle answers the out-of-vocabulary action
`scroll`. -/
def c7_wenv : StepEnv :=
  { env0 with reason := fun _ =>
      ⟨"scroll".toList, "page".toList, [], [], []⟩ }

/-- Environment whose oracle answers `click` with a whitespace-only
target. -/
def c10_wenv : StepEnv :=
  { env0 with reason := fun _ =>
      ⟨"click".toList, "  ".toList, [], [], []⟩ }

/-- Environment where the oracle asks to click `Save` and nothing on the
page matches. -/
def c8_wenv : StepEnv :=
  { env0 with reason := fun _ =>
      ⟨"click".toList, "Save".toList, [], [], []⟩ }

/-- Environment where the oracle asks to click `Save` and the text-match
strategy resolves it. -/
def c9_wenv : StepEnv :=
  { env0 with
      reason := fun _ => ⟨"click".toList, "Save".toList, [], [], []⟩
      clickByText := true }

/-- Environment where the oracle asks to type into `X` and every typing
strategy fails. -/
def c2_cenv : StepEnv :=
  { env0 with reason := fun _ =>
      ⟨"type".toList, "X".toList, "v".toList, [], []⟩ }

/-- Environment where the oracle asks to type and the placeholder fill
succeeds. -/
def c2_wenv : StepEnv :=
  { env0 with
      reason := fun _ => ⟨"type".toList, "Name".toList, "sample".toList, [], []⟩
      fillByPlaceholder := true }

/-- Environment whose screenshot call raises. -/
def c3_cenv : StepEnv :=
  { env0 with screenshot := .error ("boom".toList) }

/-- Environment whose oracle immediately answers `done`. -/
def c3_wenv : StepEnv :=
  { env0 with reason := fun _ =>
      ⟨"done".toList, [], [], "all finished".toList, []⟩ }

/-- Environment whose screenshot call raises while the text read works. -/
def c4_cenv : StepEnv :=
  { env0 with
      screenshot := .error ("shot failed".toList)
      innerText := .ok ("body".toList) }

/-- Environment whose body-text read raises. -/
def c4_wenv : StepEnv :=
  { env0 with innerText := .error ("read error".toList) }

theorem test_parse :
    (parse_response ("- action: Click\n- target: All issues (top)\n- value:\n- reasoning: open".toList)).action
      = ("click".toList) := by decide

theorem test_sanitize :
    sanitize_target ("\"All issues (top)\"".toList) = ("All issues".toList) := by decide

/-! ## Helper lemmas about stripping and searching -/

theorem stripWhile_sub (p : Char → Bool) (l : List Char) :
    stripWhile p l <:+: l :=
  (List.dropWhile_suffix p).isInfix.trans (List.rdropWhile_prefix p l).isInfix

theorem pyStrip_sub (s : List Char) : pyStrip s <:+: s :=
  stripWhile_sub isPyWS s

theorem lowerList_cons (c : Char) (cs : List Char) :
    lowerList (c :: cs) = c.toLower :: lowerList cs := rfl

theorem findCI_eq_none_iff (pat : List Char) :
    ∀ s : List Char, findCI pat s = none ↔ ¬ lowerList pat <:+: lowerList s
  | [] => by
    by_cases hp : pat = []
    · subst hp
      simp [findCI, lowerList]
    · simp [findCI, hp, lowerList, List.map_eq_nil_iff]
  | c :: cs => by
    rw [findCI]
    by_cases h : lowerList pat <+: lowerList (c :: cs)
    · simp only [if_pos h]
      simp [h.isInfix]
    · simp only [if_neg h]
      rw [findCI_eq_none_iff pat cs, lowerList_cons, List.infix_cons_iff,
        ← lowerList_cons]
      tauto

theorem grab_eq_nil_of_absent (field txt : List Char)
    (h : ¬ lowerList (field ++ [':']) <:+: lowerList txt) :
    grab field txt = [] := by
  unfold grab
  rw [(findCI_eq_none_iff (field ++ [':']) txt).mpr h]

theorem stripWhile_eq_self {p : Char → Bool} {l : List Char}
    (hhead : ∀ hl : 0 < l.length, ¬ p (l.get ⟨0, hl⟩))
    (hlast : ∀ hl : l ≠ [], ¬ p (l.getLast hl)) :
    stripWhile p l = l := by
  unfold stripWhile
  rw [List.rdropWhile_eq_self_iff.mpr hlast, List.dropWhile_eq_self_iff.mpr hhead]

theorem getLast_of_suffix {l₁ l₂ : List Char} (h : l₁ <:+ l₂) (hne : l₁ ≠ [])
    (hne2 : l₂ ≠ []) : l₂.getLast hne2 = l₁.getLast hne := by
  obtain ⟨t, rfl⟩ := h
  exact List.getLast_append' t l₁ hne

theorem stripWhile_get_zero_not (p : Char → Bool) (l : List Char)
    (hl : 0 < (stripWhile p l).length) : ¬ p ((stripWhile p l).get ⟨0, hl⟩) :=
  List.dropWhile_get_zero_not p (l.rdropWhile p) hl

theorem stripWhile_getLast_not (p : Char → Bool) (l : List Char)
    (hl : stripWhile p l ≠ []) : ¬ p ((stripWhile p l).getLast hl) := by
  have hsuf : stripWhile p l <:+ l.rdropWhile p := List.dropWhile_suffix p
  have hX : l.rdropWhile p ≠ [] := by
    intro hnil
    apply hl
    unfold stripWhile
    rw [hnil]
    rfl
  rw [← getLast_of_suffix hsuf hl hX]
  exact List.rdropWhile_last_not p l hX

theorem stripWhile_idem (p : Char → Bool) (l : List Char) :
    stripWhile p (stripWhile p l) = stripWhile p l :=
  stripWhile_eq_self (fun hl => stripWhile_get_zero_not p l hl)
    (fun hl => stripWhile_getLast_not p l hl)

theorem splitFirst_pre (sep : List Char) : ∀ t, splitFirst sep t <+: t
  | [] => by simp [splitFirst]
  | c :: cs => by
    rw [splitFirst]
    by_cases h : sep <+: (c :: cs)
    · simp [h]
    · simp only [if_neg h]
      exact (List.prefix_cons_inj c).mpr (splitFirst_pre sep cs)

theorem not_infix_splitFirst (sep : List Char) (hsep : sep ≠ []) :
    ∀ t, ¬ sep <:+: splitFirst sep t
  | [] => by
    rw [splitFirst]
    simp [List.infix_nil, hsep]
  | c :: cs => by
    rw [splitFirst]
    by_cases h : sep <+: (c :: cs)
    · simp [h, List.infix_nil, hsep]
    · simp only [if_neg h]
      intro hin
      rcases List.infix_cons_iff.mp hin with hpre | hinf
      · exact h (hpre.trans ((List.prefix_cons_inj c).mpr (splitFirst_pre sep cs)))
      · exact not_infix_splitFirst sep hsep cs hinf

theorem truncAtSep_sub (t sep : List Char) : truncAtSep t sep <:+: t := by
  unfold truncAtSep
  by_cases h : sep <:+: t
  · rw [if_pos h]
    exact (pyStrip_sub _).trans (splitFirst_pre sep t).isInfix
  · rw [if_neg h]

theorem not_infix_truncAtSep (t sep : List Char) (hsep : sep ≠ []) :
    ¬ sep <:+: truncAtSep t sep := by
  unfold truncAtSep
  by_cases h : sep <:+: t
  · rw [if_pos h]
    intro hin
    exact not_infix_splitFirst sep hsep t (hin.trans (pyStrip_sub _))
  · rw [if_neg h]
    exact h

theorem foldl_truncAtSep_spec (L : List (List Char)) (hL : ∀ s ∈ L, s ≠ []) :
    ∀ t, (L.foldl truncAtSep t <:+: t) ∧ ∀ s ∈ L, ¬ s <:+: L.foldl truncAtSep t := by
  induction L with
  | nil =>
    intro t
    exact ⟨List.infix_refl t, by simp⟩
  | cons s₀ rest ih =>
    intro t
    have hs₀ : s₀ ≠ [] := hL s₀ (by simp)
    have hrest : ∀ s ∈ rest, s ≠ [] := fun s hs => hL s (by simp [hs])
    obtain ⟨hinf, habs⟩ := ih hrest (truncAtSep t s₀)
    rw [List.foldl_cons]
    refine ⟨hinf.trans (truncAtSep_sub t s₀), ?_⟩
    intro s hs
    rcases List.mem_cons.mp hs with rfl | hs'
    · intro hcon
      exact not_infix_truncAtSep t s hs₀ (hcon.trans hinf)
    · exact habs s hs'

theorem foldl_truncAtSep_id (L : List (List Char)) :
    ∀ t, (∀ s ∈ L, ¬ s <:+: t) → L.foldl truncAtSep t = t := by
  induction L with
  | nil =>
    intro t _
    rfl
  | cons s₀ rest ih =>
    intro t h
    rw [List.foldl_cons, truncAtSep, if_neg (h s₀ (by simp))]
    exact ih t fun s hs => h s (by simp [hs])

/-! ### Case-folding facts used for the sanitized `action` field -/

theorem toLower_def (c : Char) :
    c.toLower = if c.toNat ≥ 65 ∧ c.toNat ≤ 90 then Char.ofNat (c.toNat + 32) else c :=
  rfl

theorem toNat_ofNat_valid {n : Nat} (h : n.isValidChar) : (Char.ofNat n).toNat = n := by
  simp [Char.ofNat, h, Char.ofNatAux, Char.toNat, UInt32.toNat]

theorem toNat_le_of_isPyWS {x : Char} (h : isPyWS x = true) : x.toNat ≤ 32 := by
  unfold isPyWS at h
  simp only [Bool.or_eq_true, beq_iff_eq] at h
  rcases h with ((((h | h) | h) | h) | h) | h <;> subst h <;> decide

theorem toLower_toLower (c : Char) : c.toLower.toLower = c.toLower := by
  rw [toLower_def c]
  by_cases h : c.toNat ≥ 65 ∧ c.toNat ≤ 90
  · rw [if_pos h, toLower_def, if_neg]
    rw [toNat_ofNat_valid (Or.inl (by omega))]
    omega
  · rw [if_neg h, toLower_def, if_neg h]

theorem isPyWS_toLower (c : Char) : isPyWS c.toLower = isPyWS c := by
  rw [toLower_def]
  by_cases h : c.toNat ≥ 65 ∧ c.toNat ≤ 90
  · rw [if_pos h]
    have ht : (Char.ofNat (c.toNat + 32)).toNat = c.toNat + 32 :=
      toNat_ofNat_valid (Or.inl (by omega))
    have e1 : isPyWS (Char.ofNat (c.toNat + 32)) = false := by
      cases hw : isPyWS (Char.ofNat (c.toNat + 32))
      · rfl
      · have := toNat_le_of_isPyWS hw
        omega
    have e2 : isPyWS c = false := by
      cases hw : isPyWS c
      · rfl
      · have := toNat_le_of_isPyWS hw
        omega
    rw [e1, e2]
  · rw [if_neg h]

theorem dropWhile_map (f : Char → Char) (p : Char → Bool)
    (hf : ∀ x, p (f x) = p x) :
    ∀ l : List Char, (l.map f).dropWhile p = (l.dropWhile p).map f
  | [] => rfl
  | c :: cs => by
    simp only [List.map_cons, List.dropWhile_cons, hf c]
    cases hp : p c <;> simp [dropWhile_map f p hf cs]

theorem stripWhile_map (f : Char → Char) (p : Char → Bool)
    (hf : ∀ x, p (f x) = p x) (l : List Char) :
    stripWhile p (l.map f) = (stripWhile p l).map f := by
  unfold stripWhile List.rdropWhile
  rw [← List.map_reverse, dropWhile_map f p hf, ← List.map_reverse,
    dropWhile_map f p hf]

theorem lowerList_action_idem (a : List Char) :
    lowerList (pyStrip (lowerList (pyStrip a))) = lowerList (pyStrip a) := by
  unfold lowerList pyStrip
  rw [stripWhile_map Char.toLower isPyWS isPyWS_toLower, stripWhile_idem,
    List.map_map]
  have hfun : Char.toLower ∘ Char.toLower = Char.toLower := funext toLower_toLower
  rw [hfun]

/-! ## Claim C5 — parser robustness -/

/-- C5 counterexample: extraction is not prefix matching.  On the
single-line text `"interaction: scroll"` no line begins with the label
`action:` (case-insensitively), yet the parser extracts `"scroll"` for
`action`, because `re.search` matches the label anywhere in the line. -/
theorem c5_counterexample :
    (parse_response ("interaction: scroll".toList)).action = ("scroll".toList)
    ∧ ¬ ("action:".toList) <+: lowerList ("interaction: scroll".toList) := by
  constructor
  · decide
  · decide

/-- C5 (amended): parsing is total (never raises — it is a function into
`RespFields`), each field is extracted at the first case-insensitive
occurrence of `label:` anywhere in the text (substring search rather
than prefix matching), and each field whose label occurs nowhere in the
text is the empty string. -/
theorem c5_parse_fields (txt : List Char) :
    (¬ ("action:".toList) <:+: lowerList txt → (parse_response txt).action = [])
    ∧ (¬ ("target:".toList) <:+: lowerList txt → (parse_response txt).target = [])
    ∧ (¬ ("value:".toList) <:+: lowerList txt → (parse_response txt).value = [])
    ∧ (¬ ("reasoning:".toList) <:+: lowerList txt →
        (parse_response txt).reasoning = []) := by
  have key : ∀ field lab : List Char, lowerList (field ++ [':']) = lab →
      ¬ lab <:+: lowerList txt → grab field (pyStrip txt) = [] := by
    intro field lab hlab h
    apply grab_eq_nil_of_absent
    rw [hlab]
    intro hin
    exact h (hin.trans ((pyStrip_sub txt).map Char.toLower))
  refine ⟨fun h => ?_, fun h => ?_, fun h => ?_, fun h => ?_⟩ <;>
    simp only [parse_response]
  · rw [key ("action".toList) ("action:".toList) (by decide) h]
    rfl
  · exact key ("target".toList) ("target:".toList) (by decide) h
  · exact key ("value".toList) ("value:".toList) (by decide) h
  · exact key ("reasoning".toList) ("reasoning:".toList) (by decide) h

/-! ## Claim C6 — sanitation idempotence -/

theorem sanitize_target_idem (t : List Char)
    (h : ∀ c ∈ t, isPyWS c = true → c = ' ') :
    sanitize_target (sanitize_target t) = sanitize_target t := by
  have hseps : ∀ s ∈ sepsList, s ≠ [] := by decide
  obtain ⟨hinf2, hno2⟩ := foldl_truncAtSep_spec sepsList hseps (pyStrip t)
  have hu0_t2 : stripWhile isQuoteSp (sepsList.foldl truncAtSep (pyStrip t))
      <:+: sepsList.foldl truncAtSep (pyStrip t) := stripWhile_sub _ _
  have hu0_t : stripWhile isQuoteSp (sepsList.foldl truncAtSep (pyStrip t)) <:+: t :=
    hu0_t2.trans (hinf2.trans (pyStrip_sub t))
  have hmem : ∀ c ∈ stripWhile isQuoteSp (sepsList.foldl truncAtSep (pyStrip t)),
      isPyWS c = true → c = ' ' := fun c hc => h c (hu0_t.sublist.subset hc)
  have hfix : pyStrip (stripWhile isQuoteSp (sepsList.foldl truncAtSep (pyStrip t)))
      = stripWhile isQuoteSp (sepsList.foldl truncAtSep (pyStrip t)) := by
    apply stripWhile_eq_self
    · intro hl hws
      refine stripWhile_get_zero_not isQuoteSp _ hl ?_
      rw [hmem _ (List.get_mem _ 0 hl) hws]
      decide
    · intro hl hws
      refine stripWhile_getLast_not isQuoteSp _ hl ?_
      rw [hmem _ (List.getLast_mem hl) hws]
      decide
  have hres : sanitize_target t
      = stripWhile isQuoteSp (sepsList.foldl truncAtSep (pyStrip t)) := hfix
  have hno : ∀ s ∈ sepsList,
      ¬ s <:+: stripWhile isQuoteSp (sepsList.foldl truncAtSep (pyStrip t)) :=
    fun s hs hcon => hno2 s hs (hcon.trans hu0_t2)
  rw [hres]
  unfold sanitize_target
  rw [hfix, foldl_truncAtSep_id sepsList _ hno, stripWhile_idem, hfix]

/-- C6 counterexample: `_sanitize_fields` is not idempotent.  On target
`a'<TAB>'` the first pass strips the outer quote, then the trailing
whitespace strip exposes a new trailing quote (`a'`); the second pass
strips that quote too (`a`). -/
theorem c6_counterexample :
    sanitize_fields (sanitize_fields c6_bad) ≠ sanitize_fields c6_bad := by
  decide

/-- C6 (amended): `_sanitize_fields` is idempotent on every decision
whose target contains no whitespace other than plain spaces (the
counterexample needs a non-space whitespace character inside the target
so that the final whitespace strip can expose a fresh quote). -/
theorem c6_sanitize_idem (d : RespFields)
    (h : ∀ c ∈ d.target, isPyWS c = true → c = ' ') :
    sanitize_fields (sanitize_fields d) = sanitize_fields d := by
  cases d with
  | mk a t v r w =>
    simp only [sanitize_fields]
    rw [lowerList_action_idem, sanitize_target_idem t h]

/-- Witness for C6 on a concrete space-only target. -/
theorem c6_sanitize_idem_witness :
    sanitize_fields (sanitize_fields c6_wd) = sanitize_fields c6_wd :=
  c6_sanitize_idem c6_wd (by decide)

/-- Witness for C5 on a concrete label-free text. -/
theorem c5_parse_fields_witness :
    (parse_response ("hello world".toList)).action = []
    ∧ (parse_response ("hello world".toList)).target = []
    ∧ (parse_response ("hello world".toList)).value = []
    ∧ (parse_response ("hello world".toList)).reasoning = [] :=
  ⟨(c5_parse_fields _).1 (by decide), (c5_parse_fields _).2.1 (by decide),
    (c5_parse_fields _).2.2.1 (by decide), (c5_parse_fields _).2.2.2 (by decide)⟩

/-! ## Claim C1 — retry/backoff bound -/

/-- C1 counterexample: after 3 consecutive transient-error responses the
wrapper does NOT stop at 3 attempts and does NOT degrade to `wait` — the
`return create_fn()` after the loop makes a fourth call, whose success
here yields a `click` decision. -/
theorem c1_counterexample :
    (call_with_retry c1_fn 1).calls = 4
    ∧ (decide_next_action c1_fn 1).action ≠ ("wait".toList) := by decide

/-- C1 (amended): three consecutive transient-error responses cause
three failed attempts with strictly increasing back-off waits
(`base`, `2·base`, `4·base`), followed by a fourth, final attempt; the
wrapper's result is that fourth call's outcome, and if it fails too the
catch-all in `decide_next_action` degrades to the synthetic `wait`
decision, so no exception escapes. -/
theorem c1_retry_backoff (fn : Nat → Except (List Char) (List Char)) (base : Nat)
    (e0 e1 e2 : List Char)
    (h0 : fn 0 = .error e0) (t0 : is_transient e0)
    (h1 : fn 1 = .error e1) (t1 : is_transient e1)
    (h2 : fn 2 = .error e2) (t2 : is_transient e2) :
    (call_with_retry fn base).calls = 4
    ∧ (call_with_retry fn base).waits = [base, base * 2, base * 4]
    ∧ (0 < base → base < base * 2 ∧ base * 2 < base * 4)
    ∧ (call_with_retry fn base).result = fn 3
    ∧ ∀ e, fn 3 = .error e → decide_next_action fn base = api_error_resp e := by
  have key : call_with_retry fn base = ⟨fn 3, 4, [base, base * 2, base * 4]⟩ := by
    simp [call_with_retry, call_with_retry_go, h0, h1, h2, t0, t1, t2, pow_succ,
      Nat.mul_assoc]
  refine ⟨by rw [key], by rw [key], fun hb => ⟨by omega, by omega⟩, by rw [key], ?_⟩
  intro e he
  unfold decide_next_action
  rw [key]
  simp [he]

/-- Witness for C1 at a concrete always-transiently-failing transport
with base delay 1. -/
theorem c1_retry_backoff_witness :
    (call_with_retry c1_wfn 1).calls = 4
    ∧ (call_with_retry c1_wfn 1).waits = [1, 1 * 2, 1 * 4]
    ∧ (0 < 1 → 1 < 1 * 2 ∧ 1 * 2 < 1 * 4)
    ∧ (call_with_retry c1_wfn 1).result = c1_wfn 3
    ∧ ∀ e, c1_wfn 3 = .error e → decide_next_action c1_wfn 1 = api_error_resp e :=
  c1_retry_backoff c1_wfn 1 _ _ _ rfl (by decide) rfl (by decide) rfl (by decide)

/-! ## Generic step lemmas -/

theorem run_step_ok {env : StepEnv} {s : LoopState}
    (hshot : env.screenshot = .ok ()) : run_step env s = step_body env s := by
  unfold run_step
  rw [hshot]

theorem step_body_ne_crashed (env : StepEnv) (s : LoopState)
    (msg : List Char) (ev : List Event) : step_body env s ≠ .crashed msg ev := by
  dsimp only [step_body]
  split
  · simp
  · split
    · split <;> simp
    · split
      · split <;> simp
      · simp

/-! ## Claim C7 — unrecognized actions degrade to wait -/

/-- C7: when the (lowercased) action is outside the four-value
vocabulary, the step runs the `time.sleep(2)` no-op branch: no element
interaction, memory unchanged, step counter advanced. -/
theorem c7_unknown_action_wait (env : StepEnv) (s : LoopState)
    (hshot : env.screenshot = .ok ())
    (ha : lowerList (env.reason (dom_text env s)).action ∉
      [("click".toList), ("type".toList), ("wait".toList), ("done".toList)]) :
    run_step env s = .next ⟨s.step + 1, s.lastAction, s.lastTarget⟩
      [.shot, .oracle (dom_text env s), .slept, .paced]
    ∧ ∀ e ∈ [Event.shot, Event.oracle (dom_text env s), Event.slept, Event.paced],
        isInteraction e = false := by
  simp only [List.mem_cons, List.not_mem_nil, or_false, not_or] at ha
  obtain ⟨hc, ht, _, hd⟩ := ha
  constructor
  · rw [run_step_ok hshot]
    dsimp only [step_body]
    rw [if_neg hd, if_neg (fun hh => hc hh.1), if_neg ht]
    rfl
  · intro e he
    rcases List.mem_cons.mp he with rfl | he
    · rfl
    rcases List.mem_cons.mp he with rfl | he
    · rfl
    rcases List.mem_cons.mp he with rfl | he
    · rfl
    rcases List.mem_cons.mp he with rfl | he
    · rfl
    · cases he

/-- Witness for C7 on the concrete `scroll` decision. -/
theorem c7_unknown_action_wait_witness :
    run_step c7_wenv ⟨0, none, none⟩ = .next ⟨0 + 1, none, none⟩
      [.shot, .oracle (dom_text c7_wenv ⟨0, none, none⟩), .slept, .paced]
    ∧ ∀ e ∈ [Event.shot, Event.oracle (dom_text c7_wenv ⟨0, none, none⟩),
        Event.slept, Event.paced], isInteraction e = false :=
  c7_unknown_action_wait c7_wenv ⟨0, none, none⟩ rfl (by decide)

/-! ## Claim C10 — click with an empty target is a no-op wait -/

/-- C10: a `click` whose target strips to empty fails the
`action == "click" and target` guard, so no click strategy runs and the
step falls to the `time.sleep(2)` branch with memory unchanged. -/
theorem c10_click_empty_target (env : StepEnv) (s : LoopState)
    (hshot : env.screenshot = .ok ())
    (ha : lowerList (env.reason (dom_text env s)).action = ("click".toList))
    (ht : pyStrip (env.reason (dom_text env s)).target = []) :
    run_step env s = .next ⟨s.step + 1, s.lastAction, s.lastTarget⟩
      [.shot, .oracle (dom_text env s), .slept, .paced]
    ∧ ∀ e ∈ [Event.shot, Event.oracle (dom_text env s), Event.slept, Event.paced],
        isInteraction e = false := by
  have hd : lowerList (env.reason (dom_text env s)).action ≠ ("done".toList) := by
    rw [ha]
    decide
  have hty : lowerList (env.reason (dom_text env s)).action ≠ ("type".toList) := by
    rw [ha]
    decide
  constructor
  · rw [run_step_ok hshot]
    dsimp only [step_body]
    rw [if_neg hd, if_neg (fun hh => hh.2 ht), if_neg hty]
    rfl
  · intro e he
    rcases List.mem_cons.mp he with rfl | he
    · rfl
    rcases List.mem_cons.mp he with rfl | he
    · rfl
    rcases List.mem_cons.mp he with rfl | he
    · rfl
    rcases List.mem_cons.mp he with rfl | he
    · rfl
    · cases he

/-- Witness for C10 on the concrete empty-target click. -/
theorem c10_click_empty_target_witness :
    run_step c10_wenv ⟨3, some ("click".toList), some ("X".toList)⟩
      = .next ⟨3 + 1, some ("click".toList), some ("X".toList)⟩
        [.shot, .oracle (dom_text c10_wenv ⟨3, some ("click".toList), some ("X".toList)⟩),
          .slept, .paced]
    ∧ ∀ e ∈ [Event.shot,
        Event.oracle (dom_text c10_wenv ⟨3, some ("click".toList), some ("X".toList)⟩),
        Event.slept, Event.paced], isInteraction e = false :=
  c10_click_empty_target c10_wenv ⟨3, some ("click".toList), some ("X".toList)⟩
    rfl (by decide) (by decide)

/-! ## Claim C8 — click strategy-chain exhaustion -/

/-- C8: when the three primary click strategies and the bounded button
scan all fail, the step raises nothing, reports the failure, leaves the
click memory unchanged, and advances to the next step. -/
theorem c8_click_exhaust (env : StepEnv) (s : LoopState)
    (hshot : env.screenshot = .ok ())
    (ha : lowerList (env.reason (dom_text env s)).action = ("click".toList))
    (ht : pyStrip (env.reason (dom_text env s)).target ≠ [])
    (h1 : env.clickByText = false) (h2 : env.clickByPlaceholder = false)
    (h3 : env.clickByLabel = false)
    (h4 : scan_buttons env (pyStrip (env.reason (dom_text env s)).target) = none) :
    run_step env s
      = .next ⟨s.step + 1, s.lastAction, s.lastTarget⟩
        [.shot, .oracle (dom_text env s),
          .clickAttempted (pyStrip (env.reason (dom_text env s)).target),
          .clickFailed (pyStrip (env.reason (dom_text env s)).target), .paced] := by
  have hres : click_resolved env (pyStrip (env.reason (dom_text env s)).target)
      = false := by
    simp [click_resolved, try_click_strategies, h1, h2, h3, h4]
  have hd : lowerList (env.reason (dom_text env s)).action ≠ ("done".toList) := by
    rw [ha]
    decide
  rw [run_step_ok hshot]
  dsimp only [step_body]
  rw [if_neg hd, if_pos ⟨ha, ht⟩, if_neg (by simp [hres])]
  rfl

/-- Witness for C8 on a page with no matching element. -/
theorem c8_click_exhaust_witness :
    run_step c8_wenv ⟨2, some ("click".toList), some ("Menu".toList)⟩
      = .next ⟨2 + 1, some ("click".toList), some ("Menu".toList)⟩
        [.shot,
          .oracle (dom_text c8_wenv ⟨2, some ("click".toList), some ("Menu".toList)⟩),
          .clickAttempted (pyStrip ((c8_wenv.reason
            (dom_text c8_wenv ⟨2, some ("click".toList), some ("Menu".toList)⟩)).target)),
          .clickFailed (pyStrip ((c8_wenv.reason
            (dom_text c8_wenv ⟨2, some ("click".toList), some ("Menu".toList)⟩)).target)),
          .paced] :=
  c8_click_exhaust c8_wenv ⟨2, some ("click".toList), some ("Menu".toList)⟩
    rfl (by decide) (by decide) rfl rfl rfl (by decide)

/-! ## Claim C9 — click memory propagation -/

/-- C9: a resolved click on target `T` sets the memory to
`(click, T)`, and the next step's observation text contains the literal
substring `'T' was just clicked`. -/
theorem c9_click_hint (env1 env2 : StepEnv) (s : LoopState)
    (hshot : env1.screenshot = .ok ())
    (ha : lowerList (env1.reason (dom_text env1 s)).action = ("click".toList))
    (ht : pyStrip (env1.reason (dom_text env1 s)).target ≠ [])
    (hres : click_resolved env1 (pyStrip (env1.reason (dom_text env1 s)).target)
      = true) :
    run_step env1 s
      = .next ⟨s.step + 1, some ("click".toList),
          some (pyStrip (env1.reason (dom_text env1 s)).target)⟩
        [.shot, .oracle (dom_text env1 s),
          .clickAttempted (pyStrip (env1.reason (dom_text env1 s)).target),
          .clickDone (pyStrip (env1.reason (dom_text env1 s)).target), .paced]
    ∧ hint_core (pyStrip (env1.reason (dom_text env1 s)).target)
        <:+: dom_text env2 ⟨s.step + 1, some ("click".toList),
          some (pyStrip (env1.reason (dom_text env1 s)).target)⟩ := by
  have hd : lowerList (env1.reason (dom_text env1 s)).action ≠ ("done".toList) := by
    rw [ha]
    decide
  constructor
  · rw [run_step_ok hshot]
    dsimp only [step_body]
    rw [if_neg hd, if_pos ⟨ha, ht⟩, if_pos (by simp [hres])]
    rfl
  · have hd2 : dom_text env2 ⟨s.step + 1, some ("click".toList),
        some (pyStrip (env1.reason (dom_text env1 s)).target)⟩
        = dom_base env2 ++ hint_for (pyStrip (env1.reason (dom_text env1 s)).target) := by
      dsimp only [dom_text]
      rw [if_pos ⟨rfl, ht⟩]
    rw [hd2]
    refine ⟨dom_base env2 ++ ("\n(Note: ".toList),
      (". If it opened an input field, you can now type.)".toList), ?_⟩
    simp [hint_for, List.append_assoc]

/-- Witness for C9 with the text-match strategy succeeding. -/
theorem c9_click_hint_witness :
    run_step c9_wenv ⟨0, none, none⟩
      = .next ⟨0 + 1, some ("click".toList),
          some (pyStrip ((c9_wenv.reason (dom_text c9_wenv ⟨0, none, none⟩)).target))⟩
        [.shot, .oracle (dom_text c9_wenv ⟨0, none, none⟩),
          .clickAttempted (pyStrip ((c9_wenv.reason (dom_text c9_wenv ⟨0, none, none⟩)).target)),
          .clickDone (pyStrip ((c9_wenv.reason (dom_text c9_wenv ⟨0, none, none⟩)).target)),
          .paced]
    ∧ hint_core (pyStrip ((c9_wenv.reason (dom_text c9_wenv ⟨0, none, none⟩)).target))
        <:+: dom_text env0 ⟨0 + 1, some ("click".toList),
          some (pyStrip ((c9_wenv.reason (dom_text c9_wenv ⟨0, none, none⟩)).target))⟩ :=
  c9_click_hint c9_wenv env0 ⟨0, none, none⟩ rfl (by decide) (by decide) (by decide)

/-! ## Claim C2 — loop memory after a type action -/

/-- C2 counterexample: after a type action in which every strategy
failed, the loop memory is NOT cleared — the previous click memory
`(click, Y)` survives, because the source clears it only inside the
`if filled:` branch. -/
theorem c2_counterexample :
    next_state (run_step c2_cenv ⟨5, some ("click".toList), some ("Y".toList)⟩)
      = some ⟨6, some ("click".toList), some ("Y".toList)⟩
    ∧ (some ("click".toList) : Option (List Char)) ≠ none := by
  constructor
  · decide
  · decide

/-- C2 (amended): after a type action the loop memory is cleared exactly
when some typing strategy succeeded; on total failure it is left
unchanged.  The step advances either way. -/
theorem c2_type_memory (env : StepEnv) (s : LoopState)
    (hshot : env.screenshot = .ok ())
    (ha : lowerList (env.reason (dom_text env s)).action = ("type".toList)) :
    (type_filled env (pyStrip (env.reason (dom_text env s)).target) = true →
      run_step env s = .next ⟨s.step + 1, none, none⟩
        [.shot, .oracle (dom_text env s),
          .typeAttempted (pyStrip (env.reason (dom_text env s)).target),
          .typeDone (pyStrip (env.reason (dom_text env s)).value), .paced])
    ∧ (type_filled env (pyStrip (env.reason (dom_text env s)).target) = false →
      run_step env s = .next ⟨s.step + 1, s.lastAction, s.lastTarget⟩
        [.shot, .oracle (dom_text env s),
          .typeAttempted (pyStrip (env.reason (dom_text env s)).target),
          .typeFailed (pyStrip (env.reason (dom_text env s)).target), .paced]) := by
  have hd : lowerList (env.reason (dom_text env s)).action ≠ ("done".toList) := by
    rw [ha]
    decide
  have hc : ¬(lowerList (env.reason (dom_text env s)).action = ("click".toList)
      ∧ pyStrip (env.reason (dom_text env s)).target ≠ []) := by
    intro hh
    rw [ha] at hh
    exact absurd hh.1 (by decide)
  constructor
  · intro hf
    rw [run_step_ok hshot]
    dsimp only [step_body]
    rw [if_neg hd, if_neg hc, if_pos ha, if_pos hf]
    rfl
  · intro hf
    rw [run_step_ok hshot]
    dsimp only [step_body]
    rw [if_neg hd, if_neg hc, if_pos ha, if_neg (by simp [hf])]
    rfl

/-- Witness for C2 with a successful placeholder fill. -/
theorem c2_type_memory_witness :
    (type_filled c2_wenv (pyStrip ((c2_wenv.reason
        (dom_text c2_wenv ⟨1, some ("click".toList), some ("Z".toList)⟩)).target)) = true →
      run_step c2_wenv ⟨1, some ("click".toList), some ("Z".toList)⟩
        = .next ⟨1 + 1, none, none⟩
          [.shot, .oracle (dom_text c2_wenv ⟨1, some ("click".toList), some ("Z".toList)⟩),
            .typeAttempted (pyStrip ((c2_wenv.reason
              (dom_text c2_wenv ⟨1, some ("click".toList), some ("Z".toList)⟩)).target)),
            .typeDone (pyStrip ((c2_wenv.reason
              (dom_text c2_wenv ⟨1, some ("click".toList), some ("Z".toList)⟩)).value)),
            .paced])
    ∧ (type_filled c2_wenv (pyStrip ((c2_wenv.reason
        (dom_text c2_wenv ⟨1, some ("click".toList), some ("Z".toList)⟩)).target)) = false →
      run_step c2_wenv ⟨1, some ("click".toList), some ("Z".toList)⟩
        = .next ⟨1 + 1, some ("click".toList), some ("Z".toList)⟩
          [.shot, .oracle (dom_text c2_wenv ⟨1, some ("click".toList), some ("Z".toList)⟩),
            .typeAttempted (pyStrip ((c2_wenv.reason
              (dom_text c2_wenv ⟨1, some ("click".toList), some ("Z".toList)⟩)).target)),
            .typeFailed (pyStrip ((c2_wenv.reason
              (dom_text c2_wenv ⟨1, some ("click".toList), some ("Z".toList)⟩)).target)),
            .paced]) :=
  c2_type_memory c2_wenv ⟨1, some ("click".toList), some ("Z".toList)⟩ rfl (by decide)

/-! ## Claim C3 — termination on `done` and the session save -/

/-- C3 counterexample: on an abnormal exit (the unguarded
`page.screenshot` raising) the session save is NOT attempted — there is
no `try/finally` around the loop, so `context.storage_state` is
skipped. -/
theorem c3_counterexample :
    (run_loop (fun _ => c3_cenv) ⟨0, none, none⟩ 5).1 = .crashed ("boom".toList)
    ∧ Event.saved ∉ (run_loop (fun _ => c3_cenv) ⟨0, none, none⟩ 5).2 := by
  constructor
  · decide
  · decide

/-- C3 (amended): when the oracle answers `done`, the loop breaks before
any element interaction and the session state is saved before exit; the
save is reached only on this normal exit path (abnormal termination
skips it). -/
theorem c3_done_saves (envs : Nat → StepEnv) (s : LoopState) (fuel : Nat)
    (hshot : (envs s.step).screenshot = .ok ())
    (ha : lowerList ((envs s.step).reason (dom_text (envs s.step) s)).action
      = ("done".toList)) :
    run_loop envs s (fuel + 1)
      = (.completed, [.shot, .oracle (dom_text (envs s.step) s), .saved])
    ∧ ∀ e ∈ (run_loop envs s (fuel + 1)).2, isInteraction e = false := by
  have hstep : run_step (envs s.step) s
      = .finished [.shot, .oracle (dom_text (envs s.step) s)] := by
    rw [run_step_ok hshot]
    dsimp only [step_body]
    rw [if_pos ha]
  have h1 : run_loop envs s (fuel + 1)
      = (.completed, [.shot, .oracle (dom_text (envs s.step) s), .saved]) := by
    simp only [run_loop, hstep]
    rfl
  refine ⟨h1, ?_⟩
  intro e he
  rw [h1] at he
  simp only [List.mem_cons, List.not_mem_nil, or_false] at he
  rcases he with rfl | rfl | rfl <;> rfl

/-- Witness for C3 on the immediately-done oracle. -/
theorem c3_done_saves_witness :
    run_loop (fun _ => c3_wenv) ⟨0, none, none⟩ (0 + 1)
      = (.completed,
          [.shot, .oracle (dom_text ((fun _ => c3_wenv) (0 : Nat)) ⟨0, none, none⟩), .saved])
    ∧ ∀ e ∈ (run_loop (fun _ => c3_wenv) ⟨0, none, none⟩ (0 + 1)).2,
        isInteraction e = false :=
  c3_done_saves (fun _ => c3_wenv) ⟨0, none, none⟩ 0 rfl (by decide)

/-! ## Claim C4 — observation-capture failure -/

/-- C4 counterexample: a screenshot failure is fatal.  `page.screenshot`
is not wrapped in any `try`, so the exception propagates and the run
terminates instead of proceeding with an empty screenshot reference. -/
theorem c4_counterexample :
    run_step c4_cenv ⟨0, none, none⟩ = .crashed ("shot failed".toList) []
    ∧ (run_loop (fun _ => c4_cenv) ⟨0, none, none⟩ 3).1
      = .crashed ("shot failed".toList) := by
  constructor
  · decide
  · decide

/-- C4 (amended): visible-text extraction failure is non-fatal — the
step proceeds with empty text and can never crash the iteration — but
this holds only for the text read; the screenshot call is unguarded. -/
theorem c4_text_failure_nonfatal (env : StepEnv) (s : LoopState) (e : List Char)
    (hshot : env.screenshot = .ok ()) (htext : env.innerText = .error e) :
    dom_base env = [] ∧ ∀ msg ev, run_step env s ≠ .crashed msg ev := by
  constructor
  · unfold dom_base
    rw [htext]
  · intro msg ev
    rw [run_step_ok hshot]
    exact step_body_ne_crashed env s msg ev

/-- Witness for C4 on the failing text read. -/
theorem c4_text_failure_nonfatal_witness :
    dom_base c4_wenv = []
    ∧ ∀ msg ev, run_step c4_wenv ⟨0, none, none⟩ ≠ .crashed msg ev :=
  c4_text_failure_nonfatal c4_wenv ⟨0, none, none⟩ ("read error".toList) rfl rfl
